import Mathlib

/-
Verification of the container-launch subsystem of `app/run.py`.

The program is embedded shallowly: every operating-system call the Python code
performs (`linux.mount`, `os.makedirs`, `os.symlink`, `os.mknod`,
`linux.pivot_root`, `os.chdir`, `linux.umount2`, `os.rmdir`, `os.execvp`,
`linux.sethostname`, `linux.clone`, `os.waitpid`) becomes a function from an
explicit system state `Sys` to a trace of emitted operations together with
either an error (the Python exception) or a new state.  Paths are lists of
components (so the Python string `/var/opt/app/images` is
`["var", "opt", "app", "images"]`), `os.path.join` with a relative argument is
list append, and a path mentioned by the running process is resolved against
the process root recorded in the state (which `pivot_root` changes).
-/

set_option autoImplicit false

/-- An absolute filesystem path, as its list of components; `/` is `[]`. -/
abbrev FPath := List String

/-- Render a path the way the Python code writes it into mount option strings. -/
def renderPath (p : FPath) : String := "/" ++ String.intercalate "/" p

/-- `strictUnder p q` holds when `q` is strictly below the directory `p`. -/
def strictUnder (p q : FPath) : Bool :=
  decide (q.take p.length = p) && decide (p.length < q.length)

/-- All nonempty prefixes of a path, shortest first; these are the directories
`os.makedirs` has to create (those of them that are missing). -/
def ancestorPaths (p : FPath) : List FPath :=
  (List.range p.length).map (fun k => p.take (k + 1))

/-- What a filesystem name is bound to. -/
inductive Entry where
  | dir
  | symlink (target : String)
  | node (mode : Nat) (dev : Nat)
  | file
deriving DecidableEq, Repr

/-- Errors of the embedded OS calls: `fileExists` is Python's
`FileExistsError`, `osError e` is an `OSError` with errno `e` raised by the
`linux` binding when a syscall fails. -/
inductive SysErr where
  | fileExists (p : FPath)
  | osError (errno : Nat)
deriving DecidableEq, Repr

/-- The image identity, `Image` in `run.py`. -/
structure Image where
  library : String
  image : String
  tag : String
deriving DecidableEq, Repr

/-- Parameters of one container launch, `ContainerInitParams` in `run.py`. -/
structure ContainerInitParams where
  image : Image
  command : List String
  container_id : String
deriving DecidableEq, Repr

/-- The three per-container directories, `ContainerDir` in `run.py`. -/
structure ContainerDir where
  root_dir : FPath
  rw_dir : FPath
  work_dir : FPath
deriving DecidableEq, Repr

/-- One operation performed by the program, recorded with the arguments the
code passes at the call site. -/
inductive Op where
  | sethostname (h : String)
  | mount (source : Option String) (target : FPath) (fstype : Option String)
      (flags : Nat) (data : Option String)
  | makedirs (p : FPath)
  | symlink (target : String) (link : FPath)
  | mknod (p : FPath) (mode : Nat) (dev : Nat)
  | pivot_root (new_root : FPath) (put_old : FPath)
  | chdir (p : FPath)
  | umount2 (target : FPath) (flags : Nat)
  | rmdir (p : FPath)
  | execvp (file : String) (args : List String)
  | printContainerDir (d : ContainerDir)
  | printStatus (pid : Nat) (status : Nat)
  | clone (flags : Nat)
  | waitpid (pid : Nat) (options : Nat)
deriving DecidableEq, Repr

/-- The system state seen by the process: the filesystem (a finite list of
global paths bound to entries), the hostname, the global path that is the
process root, the working directory (as a global path), and, between
`pivot_root` and `umount2`, the location where the previous root is mounted. -/
structure Sys where
  entries : List (FPath × Entry)
  hostname : String
  root : FPath
  cwd : FPath
  oldRootMount : Option FPath
deriving DecidableEq, Repr

/-- Result of running a piece of the program: the trace of attempted
operations, and either the Python exception or the new state with a value. -/
abbrev M (α : Type) := List Op × Except SysErr (Sys × α)

/-- Pure result with no operations. -/
def okM {α : Type} (st : Sys) (a : α) : M α := ([], Except.ok (st, a))

/-- Sequencing: on an exception the rest of the function body does not run. -/
def bindM {α β : Type} (x : M α) (f : Sys → α → M β) : M β :=
  match x with
  | (t, Except.error e) => (t, Except.error e)
  | (t, Except.ok (st, a)) =>
    match f st a with
    | (t2, r) => (t ++ t2, r)

/-- Does the list of filesystem bindings contain the global path `q`? -/
def hasPath (l : List (FPath × Entry)) (q : FPath) : Bool :=
  l.any (fun e => decide (e.1 = q))

/-- Does the global path `gp` exist in the filesystem? -/
def existsG (st : Sys) (gp : FPath) : Bool := hasPath st.entries gp

/-- `os.path.exists` on a path named by the process (resolved at its root). -/
def existsPath (st : Sys) (p : FPath) : Bool := existsG st (st.root ++ p)

/-- `os.makedirs(p)`: raises `FileExistsError` when the leaf already exists,
otherwise creates every missing directory on the way down. -/
def osMakedirs (st : Sys) (p : FPath) : M Unit :=
  if existsPath st p then ([Op.makedirs p], Except.error (SysErr.fileExists p))
  else
    let created := ((ancestorPaths (st.root ++ p)).filter (fun q => ! existsG st q)).map
      (fun q => (q, Entry.dir))
    ([Op.makedirs p], Except.ok ({ st with entries := created ++ st.entries }, ()))

/-- The pattern `if not os.path.exists(d): os.makedirs(d)` used by the
directory-creation loops in `run.py`. -/
def makedirsIfAbsent (st : Sys) (d : FPath) : M Unit :=
  if existsPath st d then okM st () else osMakedirs st d

/-- `os.symlink(target, link)`: raises `FileExistsError` when `link` exists. -/
def osSymlink (st : Sys) (target : String) (link : FPath) : M Unit :=
  if existsPath st link then ([Op.symlink target link], Except.error (SysErr.fileExists link))
  else ([Op.symlink target link], Except.ok ({ st with entries :=
    (st.root ++ link, Entry.symlink target) :: st.entries }, ()))

/-- `os.mknod(p, mode, dev)`: raises `FileExistsError` when `p` exists. -/
def osMknod (st : Sys) (p : FPath) (mode : Nat) (dev : Nat) : M Unit :=
  if existsPath st p then ([Op.mknod p mode dev], Except.error (SysErr.fileExists p))
  else ([Op.mknod p mode dev], Except.ok ({ st with entries :=
    (st.root ++ p, Entry.node mode dev) :: st.entries }, ()))

/-- Kernel-side meaning of a `mount` call, keyed by the filesystem type the
code passes: a pure propagation change (`MS_PRIVATE|MS_REC` on `/`), a virtual
filesystem that starts empty at the mount point (`proc`, `sysfs`, `tmpfs`,
`devpts`), or an overlay of a lower and an upper directory (the structured
form of the `lowerdir=..,upperdir=..,workdir=..` data string). -/
inductive MountSem where
  | propagationChange
  | freshEmpty
  | overlayFS (lower : FPath) (upper : FPath) (work : FPath)

/-- Entries strictly under `src`, re-rooted at `dst`: the view an overlay
mount presents of one of its layers. -/
def rerootUnder (src dst : FPath) (l : List (FPath × Entry)) : List (FPath × Entry) :=
  (l.filter (fun e => strictUnder src e.1)).map
    (fun e => (dst ++ e.1.drop src.length, e.2))

/-- `linux.mount(source, target, fstype, flags, data)`.  The recorded
operation keeps the call-site arguments; the state change follows the kernel:
mounting a virtual filesystem shadows whatever was below the mount point, an
overlay additionally presents the lower and upper trees there, and `mount(2)`
fails with `OSError` errno `ENOENT` (2) when the mount point or one of the
overlay's directories does not exist. -/
def linuxMount (st : Sys) (source : Option String) (target : FPath)
    (fstype : Option String) (flags : Nat) (data : Option String)
    (sem : MountSem) : M Unit :=
  ([Op.mount source target fstype flags data],
   match sem with
   | MountSem.propagationChange => Except.ok (st, ())
   | MountSem.freshEmpty =>
     if existsPath st target then
       let cleared := st.entries.filter (fun e => ! strictUnder (st.root ++ target) e.1)
       Except.ok ({ st with entries := cleared }, ())
     else Except.error (SysErr.osError 2)
   | MountSem.overlayFS lower upper work =>
     if existsPath st target && (existsPath st lower &&
        (existsPath st upper && existsPath st work)) then
       let merged := rerootUnder (st.root ++ lower) (st.root ++ target) st.entries ++
         rerootUnder (st.root ++ upper) (st.root ++ target) st.entries ++
         st.entries.filter (fun e => ! strictUnder (st.root ++ target) e.1)
       Except.ok ({ st with entries := merged }, ())
     else Except.error (SysErr.osError 2))

/-- `linux.sethostname(h)`. -/
def linuxSethostname (st : Sys) (h : String) : M Unit :=
  ([Op.sethostname h], Except.ok ({ st with hostname := h }, ()))

/-- `linux.pivot_root(new_root, put_old)`: the process root becomes
`new_root` and the previous root tree becomes reachable at `put_old`; fails
with `EINVAL` (22) when either path is missing. -/
def linuxPivotRoot (st : Sys) (new_root : FPath) (put_old : FPath) : M Unit :=
  ([Op.pivot_root new_root put_old],
   if existsPath st new_root && existsPath st put_old then
     Except.ok ({ st with root := st.root ++ new_root,
                          oldRootMount := some (st.root ++ put_old) }, ())
   else Except.error (SysErr.osError 22))

/-- `os.chdir(p)`; the code only calls it as `os.chdir('/')` right after the
pivot, onto the freshly pivoted root, where it succeeds. -/
def osChdir (st : Sys) (p : FPath) : M Unit :=
  ([Op.chdir p], Except.ok ({ st with cwd := st.root ++ p }, ()))

/-- `linux.umount2(target, flags)` with `MNT_DETACH`: detaches the old-root
mount when `target` is where it sits, `EINVAL` (22) otherwise. -/
def linuxUmount2 (st : Sys) (target : FPath) (flags : Nat) : M Unit :=
  ([Op.umount2 target flags],
   if st.oldRootMount = some (st.root ++ target) then
     Except.ok ({ st with oldRootMount := none }, ())
   else Except.error (SysErr.osError 22))

/-- `os.rmdir(p)`: fails when `p` is still a mount point (`EBUSY` 16), does
not exist (`ENOENT` 2), or is not empty (`ENOTEMPTY` 39). -/
def osRmdir (st : Sys) (p : FPath) : M Unit :=
  ([Op.rmdir p],
   if st.oldRootMount = some (st.root ++ p) then Except.error (SysErr.osError 16)
   else if ! existsG st (st.root ++ p) then Except.error (SysErr.osError 2)
   else if st.entries.any (fun e => strictUnder (st.root ++ p) e.1) then
     Except.error (SysErr.osError 39)
   else
     let remaining := st.entries.filter (fun e => ! decide (e.1 = st.root ++ p))
     Except.ok ({ st with entries := remaining }, ()))

/-- `os.execvp(file, args)`: replaces the process image (no return on
success); only the issued operation matters to the properties proved here. -/
def osExecvp (st : Sys) (file : String) (args : List String) : M Unit :=
  ([Op.execvp file args], Except.ok (st, ()))

/-- The `print` of the created `ContainerDir` on line 51 of `run.py`. -/
def osPrintContainerDir (st : Sys) (d : ContainerDir) : M Unit :=
  ([Op.printContainerDir d], Except.ok (st, ()))

/-- Mount flag values of the `linux` binding (standard Linux constants). -/
def MS_NOSUID : Nat := 2

/-- See `MS_NOSUID`. -/
def MS_NODEV : Nat := 4

/-- See `MS_NOSUID`. -/
def MS_REC : Nat := 16384

/-- See `MS_NOSUID`. -/
def MS_PRIVATE : Nat := 262144

/-- See `MS_NOSUID`. -/
def MS_STRICTATIME : Nat := 16777216

/-- Flag of `linux.umount2` for a lazy detach. -/
def MNT_DETACH : Nat := 2

/-- Clone flag values of the `linux` binding (standard Linux constants). -/
def CLONE_NEWNS : Nat := 131072

/-- See `CLONE_NEWNS`. -/
def CLONE_NEWUTS : Nat := 67108864

/-- See `CLONE_NEWNS`. -/
def CLONE_NEWPID : Nat := 536870912

/-- See `CLONE_NEWNS`. -/
def CLONE_NEWNET : Nat := 1073741824

/-- `stat.S_IFCHR`, the character-device file type bit. -/
def S_IFCHR : Nat := 8192

/-- `os.makedev(major, minor)` (the glibc encoding). -/
def makedev (ma : Nat) (mi : Nat) : Nat :=
  ((ma &&& 0xfffff000) <<< 32) ||| ((ma &&& 0xfff) <<< 8) |||
  ((mi &&& 0xffffff00) <<< 12) ||| (mi &&& 0xff)

/-- `ContainerExecuter.IMAGE_DATA_DIR = '/var/opt/app/images'`. -/
def ContainerExecuter.IMAGE_DATA_DIR : FPath := ["var", "opt", "app", "images"]

/-- `ContainerExecuter.CONTAINER_DATA_DIR = '/var/opt/app/container'`. -/
def ContainerExecuter.CONTAINER_DATA_DIR : FPath := ["var", "opt", "app", "container"]

/-- `ContainerExecuter._get_image_base_path`:
`os.path.join(image_dir, f'{image.library}_{image.image}_{image.tag}')`. -/
def ContainerExecuter.get_image_base_path (image : Image) (image_dir : FPath) : FPath :=
  image_dir ++ [image.library ++ "_" ++ image.image ++ "_" ++ image.tag]

/-- `ContainerExecuter._get_container_data_base_path`. -/
def ContainerExecuter.get_container_data_base_path (container_id : String) (base_path : FPath) : FPath :=
  base_path ++ [container_id]

/-- `ContainerExecuter._create_container_root_dir`. -/
def ContainerExecuter.create_container_root_dir (container_id : String) (st : Sys) : M ContainerDir :=
  let container_data_base_dir :=
    ContainerExecuter.get_container_data_base_path container_id ContainerExecuter.CONTAINER_DATA_DIR
  let container_rootfs_dir := container_data_base_dir ++ ["rootfs"]
  let container_cow_rw_dir := container_data_base_dir ++ ["cow_rw"]
  let container_cow_workdir := container_data_base_dir ++ ["cow_workdir"]
  bindM (makedirsIfAbsent st container_rootfs_dir) (fun st1 _ =>
  bindM (makedirsIfAbsent st1 container_cow_rw_dir) (fun st2 _ =>
  bindM (makedirsIfAbsent st2 container_cow_workdir) (fun st3 _ =>
  okM st3 ⟨container_rootfs_dir, container_cow_rw_dir, container_cow_workdir⟩)))

/-- `ContainerExecuter._mount_image_dir`. -/
def ContainerExecuter.mount_image_dir (image : Image) (container_dir : ContainerDir) (st : Sys) : M Unit :=
  let image_path := ContainerExecuter.get_image_base_path image ContainerExecuter.IMAGE_DATA_DIR
  let image_root := image_path ++ ["layers", "contents"]
  linuxMount st (some "overlay") container_dir.root_dir (some "overlay") MS_NODEV
    (some ("lowerdir=" ++ renderPath image_root ++ ",upperdir=" ++
      renderPath container_dir.rw_dir ++ ",workdir=" ++ renderPath container_dir.work_dir))
    (MountSem.overlayFS image_root container_dir.rw_dir container_dir.work_dir)

/-- The device table of `ContainerExecuter._init_devices`, in the insertion
order of the Python dict: name, type bit, major, minor. -/
def ContainerExecuter.deviceTable : List (String × Nat × Nat × Nat) :=
  [("null", S_IFCHR, 1, 3), ("zero", S_IFCHR, 1, 5), ("random", S_IFCHR, 1, 8),
   ("urandom", S_IFCHR, 1, 9), ("console", S_IFCHR, 136, 1), ("tty", S_IFCHR, 5, 0),
   ("full", S_IFCHR, 1, 7)]

/-- The `for device, (dev_type, major, minor) in devices.items()` loop of
`_init_devices`: `os.mknod(join(dev_path, device), 0o666 | dev_type,
os.makedev(major, minor))`. -/
def ContainerExecuter.mknodLoop (dev_path : FPath) (st : Sys) :
    List (String × Nat × Nat × Nat) → M Unit
  | [] => okM st ()
  | (device, dev_type, ma, mi) :: rest =>
    bindM (osMknod st (dev_path ++ [device]) (0o666 ||| dev_type) (makedev ma mi))
      (fun st1 _ => ContainerExecuter.mknodLoop dev_path st1 rest)

/-- `ContainerExecuter._init_devices`: the three stdio symlinks (targets
`/proc/self/fd/0..2`), the `fd` symlink, then the device-node loop. -/
def ContainerExecuter.init_devices (dev_path : FPath) (st : Sys) : M Unit :=
  bindM (osSymlink st "/proc/self/fd/0" (dev_path ++ ["stdin"])) (fun st1 _ =>
  bindM (osSymlink st1 "/proc/self/fd/1" (dev_path ++ ["stdout"])) (fun st2 _ =>
  bindM (osSymlink st2 "/proc/self/fd/2" (dev_path ++ ["stderr"])) (fun st3 _ =>
  bindM (osSymlink st3 "/proc/self/fd" (dev_path ++ ["fd"])) (fun st4 _ =>
  ContainerExecuter.mknodLoop dev_path st4 ContainerExecuter.deviceTable))))

/-- Lines 118-121 of `run.py`: `if not os.path.exists(devpts_path):
os.makedirs(devpts_path); linux.mount('devpts', devpts_path, 'devpts', 0, '')`
(the mount statement is inside the `if`). -/
def ContainerExecuter.devptsBlock (container_root_dir : FPath) (st : Sys) : M Unit :=
  let devpts_path := container_root_dir ++ ["dev", "pts"]
  if existsPath st devpts_path then okM st ()
  else
    bindM (osMakedirs st devpts_path) (fun st1 _ =>
      linuxMount st1 (some "devpts") devpts_path (some "devpts") 0 (some "")
        MountSem.freshEmpty)

/-- `ContainerExecuter._init_system_dir`. -/
def ContainerExecuter.init_system_dir (container_root_dir : FPath) (st : Sys) : M Unit :=
  let proc_dir := container_root_dir ++ ["proc"]
  let sysfs_dir := container_root_dir ++ ["sys"]
  let dev_dir := container_root_dir ++ ["dev"]
  bindM (makedirsIfAbsent st proc_dir) (fun st1 _ =>
  bindM (makedirsIfAbsent st1 sysfs_dir) (fun st2 _ =>
  bindM (makedirsIfAbsent st2 dev_dir) (fun st3 _ =>
  bindM (linuxMount st3 (some "proc") proc_dir (some "proc") 0 (some "")
      MountSem.freshEmpty) (fun st4 _ =>
  bindM (linuxMount st4 (some "sysfs") sysfs_dir (some "sysfs") 0 (some "")
      MountSem.freshEmpty) (fun st5 _ =>
  bindM (linuxMount st5 (some "tmpfs") dev_dir (some "tmpfs")
      (MS_NOSUID ||| MS_STRICTATIME) (some "mode=755") MountSem.freshEmpty) (fun st6 _ =>
  bindM (ContainerExecuter.devptsBlock container_root_dir st6) (fun st7 _ =>
  ContainerExecuter.init_devices (container_root_dir ++ ["dev"]) st7)))))))

/-- `ContainerExecuter._change_root_dir`: make `old_root`, pivot, `chdir('/')`,
detach-unmount `/old_root`, remove it.  After the pivot the absolute paths
`'/'` and `'/old_root'` are resolved at the new root. -/
def ContainerExecuter.change_root_dir (container_root_dir : FPath) (st : Sys) : M Unit :=
  let old_root := container_root_dir ++ ["old_root"]
  bindM (osMakedirs st old_root) (fun st1 _ =>
  bindM (linuxPivotRoot st1 container_root_dir old_root) (fun st2 _ =>
  bindM (osChdir st2 []) (fun st3 _ =>
  bindM (linuxUmount2 st3 ["old_root"] MNT_DETACH) (fun st4 _ =>
  osRmdir st4 ["old_root"]))))

/-- `ContainerExecuter.execute`: the body of the cloned child. -/
def ContainerExecuter.execute (init_params : ContainerInitParams) (st : Sys) : M Unit :=
  bindM (linuxSethostname st init_params.container_id) (fun st1 _ =>
  bindM (linuxMount st1 none [] none (MS_PRIVATE ||| MS_REC) none
      MountSem.propagationChange) (fun st2 _ =>
  bindM (ContainerExecuter.create_container_root_dir init_params.container_id st2)
    (fun st3 container_dir =>
  bindM (osPrintContainerDir st3 container_dir) (fun st4 _ =>
  bindM (ContainerExecuter.mount_image_dir init_params.image container_dir st4) (fun st5 _ =>
  bindM (ContainerExecuter.init_system_dir container_dir.root_dir st5) (fun st6 _ =>
  bindM (ContainerExecuter.change_root_dir container_dir.root_dir st6) (fun st7 _ =>
  osExecvp st7 (init_params.command.headD "") init_params.command)))))))

/-- Which process performs an operation of a launch. -/
inductive Tagger where
  | parent
  | child
deriving DecidableEq, Repr

/-- How the cloned child eventually terminated; the exit status of the
exec'ed command (or the signal that killed it) is external input to the
launcher. -/
inductive ChildOutcome where
  | exited (code : Nat)
  | signaled (sig : Nat)
deriving DecidableEq, Repr

/-- The raw 16-bit status `os.waitpid` reports: exit code in the high byte,
terminating signal in the low bits (the core-dump flag is not modeled). -/
def encodeWaitStatus : ChildOutcome → Nat
  | ChildOutcome.exited c => (c % 256) * 256
  | ChildOutcome.signaled s => s % 128

/-- POSIX `WEXITSTATUS` of a raw wait status. -/
def wexitstatus (x : Nat) : Nat := (x / 256) % 256

/-- POSIX `WTERMSIG` of a raw wait status. -/
def wtermsig (x : Nat) : Nat := x % 128

/-- The namespace flags passed to `linux.clone` in `RunCommand.execute`. -/
def RunCommand.cloneFlags : Nat :=
  CLONE_NEWPID ||| CLONE_NEWNS ||| CLONE_NEWUTS ||| CLONE_NEWNET

/-- The number `RunCommand.execute` receives from `os.waitpid` and prints as
`'{} exited with status {}'`. -/
def RunCommand.reportedStatus (o : ChildOutcome) : Nat := encodeWaitStatus o

/-- The operations of one launch, `RunCommand.execute`, tagged by the process
performing them: the parent clones, the child (running
`ContainerExecuter.execute` in the new namespaces) does all the setup, and the
parent then collects the wait status of the exited child and prints it.  The
trace is the natural linearization: `waitpid` blocks until the child is done. -/
def RunCommand.launchTrace (init_params : ContainerInitParams) (st : Sys)
    (pid : Nat) (o : ChildOutcome) : List (Tagger × Op) :=
  (Tagger.parent, Op.clone RunCommand.cloneFlags) ::
  ((ContainerExecuter.execute init_params st).1.map (fun op => (Tagger.child, op)) ++
   [(Tagger.parent, Op.waitpid pid 0),
    (Tagger.parent, Op.printStatus pid (RunCommand.reportedStatus o))])

/-- Modelled from the spec: the report its Launch contract requires — "the
child's numeric exit status (and signal, if terminated by one)". -/
def specReport : ChildOutcome → Nat
  | ChildOutcome.exited c => c
  | ChildOutcome.signaled s => s

/-- Modelled from the spec: the error taxonomy of its section 7. -/
inductive SpecErrorKind where
  | directoryCreationError
  | imageNotFoundError
  | mountError
  | deviceInitError
  | rootSwitchError
  | execError
  | childTerminatedBySignalError
deriving DecidableEq, Repr

/-- Modelled from the spec: classify a runtime error of the embedded code by
the taxonomy's own glosses — a `FileExistsError` from directory creation is a
DirectoryCreationError, an `OSError` escaping a `linux.mount` call is a
MountError ("overlay, proc/sys/dev/devpts mount failures").  The code defines
no error type of its own, so the classification can only see the Python
exception class. -/
def classifyErr : SysErr → SpecErrorKind
  | SysErr.fileExists _ => SpecErrorKind.directoryCreationError
  | SysErr.osError _ => SpecErrorKind.mountError

/-- The bindings strictly below the directory `d`: the content of `d`'s
subtree. -/
def subtreeOf (l : List (FPath × Entry)) (d : FPath) : List (FPath × Entry) :=
  l.filter (fun e => strictUnder d e.1)

/-- Is the entry a symbolic link? -/
def isSymlinkEntry : Entry → Bool
  | Entry.symlink _ => true
  | _ => false

/-- Is the entry a character device node (file-type bits equal `S_IFCHR`)? -/
def isChardevEntry : Entry → Bool
  | Entry.node mode _ => decide (mode &&& 61440 = S_IFCHR)
  | _ => false

/-- Is the operation a `pivot_root` call? -/
def isPivotOp : Op → Bool
  | Op.pivot_root _ _ => true
  | _ => false

/-- A sample image reference used for concrete runs. -/
def sampleImage : Image := ⟨"library", "busybox", "latest"⟩

/-- Sample launch parameters used for concrete runs. -/
def sampleParams : ContainerInitParams := ⟨sampleImage, ["/bin/sh"], "c1"⟩

/-- The lower directory the sample image resolves to. -/
def sampleLower : FPath :=
  ContainerExecuter.get_image_base_path sampleImage ContainerExecuter.IMAGE_DATA_DIR ++
    ["layers", "contents"]

/-- An initial state with an empty filesystem. -/
def emptySys : Sys := ⟨[], "host", [], [], none⟩

/-- An initial state where the sample image is materialized and its content
contains a directory named `old_root`. -/
def imageWithOldRootSys : Sys :=
  ⟨[(sampleLower, Entry.dir), (sampleLower ++ ["old_root"], Entry.dir)], "host", [], [], none⟩

/-- An initial state where the sample image is materialized (no `old_root`). -/
def imageSys : Sys := ⟨[(sampleLower, Entry.dir)], "host", [], [], none⟩

/-- The container directories the sample launch derives. -/
def sampleContainerDir : ContainerDir :=
  ⟨["var", "opt", "app", "container", "c1", "rootfs"],
   ["var", "opt", "app", "container", "c1", "cow_rw"],
   ["var", "opt", "app", "container", "c1", "cow_workdir"]⟩

/-- A state where the sample container directories exist but the sample
image's `layers/contents` does not. -/
def dirsNoImageSys : Sys :=
  ⟨[(sampleContainerDir.root_dir, Entry.dir), (sampleContainerDir.rw_dir, Entry.dir),
    (sampleContainerDir.work_dir, Entry.dir)], "host", [], [], none⟩

/-- A state where the sample image exists but the overlay mount point (the
container rootfs directory) does not. -/
def imageNoTargetSys : Sys :=
  ⟨[(sampleLower, Entry.dir), (sampleContainerDir.rw_dir, Entry.dir),
    (sampleContainerDir.work_dir, Entry.dir)], "host", [], [], none⟩

/-- Congruence for `List.any` under a pointwise equality on members. -/
lemma any_congr_mem {α : Type} (l : List α) (p q : α → Bool)
    (h : ∀ a ∈ l, p a = q a) : l.any p = l.any q := by
  induction l with
  | nil => rfl
  | cons a t ih =>
    simp only [List.any_cons]
    rw [h a (by simp), ih (fun b hb => h b (by simp [hb]))]

/-- Path search distributes over list append. -/
lemma hasPath_append (A B : List (FPath × Entry)) (q : FPath) :
    hasPath (A ++ B) q = (hasPath A q || hasPath B q) := List.any_append

/-- Path search is unaffected by a filter whose predicate keeps every binding
of the searched path. -/
lemma hasPath_filter_keep (l : List (FPath × Entry)) (P : FPath × Entry → Bool) (q : FPath)
    (h : ∀ e : FPath × Entry, e.1 = q → P e = true) :
    hasPath (l.filter P) q = hasPath l q := by
  unfold hasPath
  rw [List.any_filter]
  apply any_congr_mem
  intro e _
  by_cases he : e.1 = q
  · simp [he, h e he]
  · simp [he]

/-- Path search fails over a filter whose predicate drops every binding of the
searched path. -/
lemma hasPath_filter_drop (l : List (FPath × Entry)) (P : FPath × Entry → Bool) (q : FPath)
    (h : ∀ e : FPath × Entry, e.1 = q → P e = false) :
    hasPath (l.filter P) q = false := by
  unfold hasPath
  rw [List.any_filter]
  rw [List.any_eq_false]
  intro e _
  by_cases he : e.1 = q
  · simp [he, h e he]
  · simp [he]

/-- A directory is not strictly under itself or anything at least as long. -/
lemma strictUnder_of_length_le (p q : FPath) (h : q.length ≤ p.length) :
    strictUnder p q = false := by
  unfold strictUnder
  have : ¬ p.length < q.length := by omega
  simp [this]

/-- A direct child is strictly under its directory. -/
lemma strictUnder_append_single (p : FPath) (x : String) :
    strictUnder p (p ++ [x]) = true := by
  unfold strictUnder
  simp [List.take_left]

/-- The nonempty prefixes of a path with a final component split off. -/
lemma ancestorPaths_append_single (D : FPath) (x : String) :
    ancestorPaths (D ++ [x]) = ancestorPaths D ++ [D ++ [x]] := by
  unfold ancestorPaths
  rw [show (D ++ [x]).length = D.length + 1 by simp]
  rw [List.range_succ, List.map_append]
  congr 1
  · apply List.map_eq_map_iff.mpr
    intro k hk
    rw [List.mem_range] at hk
    rw [List.take_append_eq_append_take]
    rw [show k + 1 - D.length = 0 by omega]
    simp
  · simp [List.take_append_eq_append_take]

/-- A nonempty path is its own longest nonempty prefix. -/
lemma mem_anc_self (r : FPath) (h : r ≠ []) : r ∈ ancestorPaths r := by
  unfold ancestorPaths
  rw [List.mem_map]
  refine ⟨r.length - 1, ?_, ?_⟩
  · rw [List.mem_range]
    have : 0 < r.length := List.length_pos.mpr h
    omega
  · have : 0 < r.length := List.length_pos.mpr h
    rw [show r.length - 1 + 1 = r.length by omega]
    exact List.take_length r

/-- No prefix of a path is strictly under that path. -/
lemma anc_not_strictUnder (r q : FPath) (hq : q ∈ ancestorPaths r) :
    strictUnder r q = false := by
  unfold ancestorPaths at hq
  rw [List.mem_map] at hq
  obtain ⟨k, hk, rfl⟩ := hq
  rw [List.mem_range] at hk
  apply strictUnder_of_length_le
  rw [List.length_take]
  omega

/-- Among the prefixes of a direct child `D ++ [x]` of `D`, the only one
strictly under `D` is the child itself. -/
lemma anc_filter_strictUnder (D : FPath) (x : String) (A : FPath → Bool) :
    ((ancestorPaths (D ++ [x])).filter A).filter (fun q => strictUnder D q) =
      if A (D ++ [x]) then [D ++ [x]] else [] := by
  rw [ancestorPaths_append_single, List.filter_append, List.filter_append]
  have h1 : ((ancestorPaths D).filter A).filter (fun q => strictUnder D q) = [] := by
    rw [List.filter_eq_nil_iff]
    intro q hq
    rw [List.mem_filter] at hq
    simp [anc_not_strictUnder D q hq.1]
  rw [h1]
  by_cases hA : A (D ++ [x]) = true
  · simp [hA, strictUnder_append_single]
  · simp only [Bool.not_eq_true] at hA
    simp [hA]

/-- Reduction of `bindM` on a successful first step. -/
lemma bindM_ok {α β : Type} (t : List Op) (st : Sys) (a : α) (f : Sys → α → M β) :
    bindM (t, Except.ok (st, a)) f = (t ++ (f st a).1, (f st a).2) := rfl

/-- Reduction of `bindM` on a failed first step. -/
lemma bindM_err {α β : Type} (t : List Op) (e : SysErr) (f : Sys → α → M β) :
    bindM (t, Except.error e) f = (t, Except.error e) := rfl

/-- Successful `os.makedirs`: the missing prefixes appear as directories. -/
lemma osMakedirs_ok (st : Sys) (p : FPath) (h : existsPath st p = false) :
    osMakedirs st p = ([Op.makedirs p], Except.ok ({ st with entries := ((ancestorPaths (st.root ++ p)).filter (fun q => ! existsG st q)).map (fun q => (q, Entry.dir)) ++ st.entries }, ())) := by
  unfold osMakedirs
  simp [h]

/-- Failing `os.makedirs` on an existing leaf. -/
lemma osMakedirs_err (st : Sys) (p : FPath) (h : existsPath st p = true) :
    osMakedirs st p = ([Op.makedirs p], Except.error (SysErr.fileExists p)) := by
  unfold osMakedirs
  simp [h]

/-- After a successful `os.makedirs st p`, every prefix of the resolved path
is present. -/
lemma hasPath_created (st : Sys) (p : FPath) (q : FPath)
    (hq : q ∈ ancestorPaths (st.root ++ p)) :
    hasPath (((ancestorPaths (st.root ++ p)).filter (fun r => ! existsG st r)).map (fun r => (r, Entry.dir)) ++ st.entries) q = true := by
  rw [hasPath_append]
  by_cases he : existsG st q = true
  · have : hasPath st.entries q = true := he
    simp [this]
  · simp only [Bool.not_eq_true] at he
    have hmem : q ∈ (ancestorPaths (st.root ++ p)).filter (fun r => ! existsG st r) := by
      rw [List.mem_filter]
      exact ⟨hq, by simp [he]⟩
    have : hasPath (((ancestorPaths (st.root ++ p)).filter (fun r => ! existsG st r)).map (fun r => (r, Entry.dir))) q = true := by
      unfold hasPath
      rw [List.any_eq_true]
      refine ⟨(q, Entry.dir), ?_, by simp⟩
      rw [List.mem_map]
      exact ⟨q, hmem, rfl⟩
    simp [this]

/-- The entries created by `os.makedirs` all sit on the resolved path's
prefix chain, so none is strictly under a direction `r` avoiding that chain. -/
lemma created_none_strictUnder (st : Sys) (p : FPath) (r : FPath)
    (h : ∀ q ∈ ancestorPaths (st.root ++ p), strictUnder r q = false) :
    (((ancestorPaths (st.root ++ p)).filter (fun q => ! existsG st q)).map (fun q => (q, Entry.dir))).any (fun e => strictUnder r e.1) = false := by
  rw [List.any_eq_false]
  intro e he
  rw [List.mem_map] at he
  obtain ⟨q, hq, rfl⟩ := he
  rw [List.mem_filter] at hq
  simp [h q hq.1]

/-- The guarded creation step always succeeds, makes its directory exist, and
only grows the filesystem. -/
lemma makedirsIfAbsent_ok (st : Sys) (d : FPath) (hne : st.root ++ d ≠ []) :
    ∃ t st', makedirsIfAbsent st d = (t, Except.ok (st', ())) ∧
      st'.root = st.root ∧ st'.cwd = st.cwd ∧ st'.hostname = st.hostname ∧
      st'.oldRootMount = st.oldRootMount ∧
      existsPath st' d = true ∧
      (∀ q, existsG st q = true → existsG st' q = true) := by
  by_cases h : existsPath st d = true
  · refine ⟨[], st, ?_, rfl, rfl, rfl, rfl, h, fun q hq => hq⟩
    unfold makedirsIfAbsent
    simp [h, okM]
  · simp only [Bool.not_eq_true] at h
    refine ⟨[Op.makedirs d], { st with entries := ((ancestorPaths (st.root ++ d)).filter (fun q => ! existsG st q)).map (fun q => (q, Entry.dir)) ++ st.entries }, ?_, rfl, rfl, rfl, rfl, ?_, ?_⟩
    · unfold makedirsIfAbsent
      rw [h]
      simp only [Bool.false_eq_true, if_false]
      exact osMakedirs_ok st d h
    · exact hasPath_created st d (st.root ++ d) (mem_anc_self _ hne)
    · intro q hq
      show hasPath _ q = true
      rw [hasPath_append]
      have : hasPath st.entries q = true := hq
      simp [this]

/-- Successful mount of a virtual filesystem over an existing mount point. -/
lemma linuxMount_freshEmpty_ok (st : Sys) (source : Option String) (target : FPath)
    (fstype : Option String) (flags : Nat) (data : Option String)
    (h : existsPath st target = true) :
    linuxMount st source target fstype flags data MountSem.freshEmpty = ([Op.mount source target fstype flags data], Except.ok ({ st with entries := st.entries.filter (fun e => ! strictUnder (st.root ++ target) e.1) }, ())) := by
  unfold linuxMount
  simp [h]

/-- Successful `os.symlink`. -/
lemma osSymlink_ok (st : Sys) (target : String) (link : FPath)
    (h : existsPath st link = false) :
    osSymlink st target link = ([Op.symlink target link], Except.ok ({ st with entries := (st.root ++ link, Entry.symlink target) :: st.entries }, ())) := by
  unfold osSymlink
  simp [h]

/-- Successful `os.mknod`. -/
lemma osMknod_ok (st : Sys) (p : FPath) (mode : Nat) (dev : Nat)
    (h : existsPath st p = false) :
    osMknod st p mode dev = ([Op.mknod p mode dev], Except.ok ({ st with entries := (st.root ++ p, Entry.node mode dev) :: st.entries }, ())) := by
  unfold osMknod
  simp [h]

/-- Subtree extraction distributes over append. -/
lemma subtreeOf_append (A B : List (FPath × Entry)) (d : FPath) :
    subtreeOf (A ++ B) d = subtreeOf A d ++ subtreeOf B d := by
  unfold subtreeOf
  exact List.filter_append A B

/-- After clearing everything under `d`, the subtree of `d` is empty. -/
lemma subtreeOf_clear (l : List (FPath × Entry)) (d : FPath) :
    subtreeOf (l.filter (fun e => ! strictUnder d e.1)) d = [] := by
  unfold subtreeOf
  rw [List.filter_eq_nil_iff]
  intro e he
  rw [List.mem_filter] at he
  have h2 := he.2
  simp only [Bool.not_eq_true'] at h2
  simp [h2]

/-- Subtree extraction commutes with any other filter. -/
lemma subtreeOf_filter_comm (l : List (FPath × Entry)) (d : FPath)
    (P : FPath × Entry → Bool) :
    subtreeOf (l.filter P) d = (subtreeOf l d).filter P := by
  unfold subtreeOf
  rw [List.filter_filter, List.filter_filter]
  exact List.filter_congr (fun a _ => by rw [Bool.and_comm])

/-- A binding directly placed strictly under `d` heads its subtree. -/
lemma subtreeOf_cons_of (r : FPath) (e : Entry) (l : List (FPath × Entry)) (d : FPath)
    (h : strictUnder d r = true) :
    subtreeOf ((r, e) :: l) d = (r, e) :: subtreeOf l d := by
  unfold subtreeOf
  rw [List.filter_cons]
  simp [h]

/-- A binding outside `d`'s subtree does not affect it. -/
lemma subtreeOf_cons_off (r : FPath) (e : Entry) (l : List (FPath × Entry)) (d : FPath)
    (h : strictUnder d r = false) :
    subtreeOf ((r, e) :: l) d = subtreeOf l d := by
  unfold subtreeOf
  rw [List.filter_cons]
  simp [h]

/-- Searching a path strictly under `d` only looks at `d`'s subtree. -/
lemma hasPath_eq_subtree (l : List (FPath × Entry)) (d q : FPath)
    (h : strictUnder d q = true) :
    hasPath l q = hasPath (subtreeOf l d) q :=
  (hasPath_filter_keep l (fun e => strictUnder d e.1) q
    (fun e he => by simp only []; rw [he]; exact h)).symm

/-- Removing every binding of a path makes it absent. -/
lemma hasPath_filter_not_self (l : List (FPath × Entry)) (r : FPath) :
    hasPath (l.filter (fun e => ! decide (e.1 = r))) r = false :=
  hasPath_filter_drop l _ r (fun e he => by simp [he])

/-- Search over an explicit cons. -/
lemma hasPath_cons (r : FPath) (e : Entry) (l : List (FPath × Entry)) (q : FPath) :
    hasPath ((r, e) :: l) q = (decide (r = q) || hasPath l q) := by
  simp [hasPath]

/-- C9: the mapping from an `Image` reference to the on-disk image base path
`{imageDir}/{library}_{image}_{tag}` is not injective: two distinct references
can collide because the separator `_` may occur inside the components. -/
theorem image_base_path_not_injective :
    ∃ i1 i2 : Image, i1 ≠ i2 ∧
      ContainerExecuter.get_image_base_path i1 ContainerExecuter.IMAGE_DATA_DIR =
      ContainerExecuter.get_image_base_path i2 ContainerExecuter.IMAGE_DATA_DIR :=
  ⟨⟨"a", "b_c", "t"⟩, ⟨"a_b", "c", "t"⟩, by decide, rfl⟩

/-- C5: the Overlay Mount Builder issues exactly one mount call: an `overlay`
filesystem at `rootDir`, with lower directory
`{imageDir}/{library}_{image}_{tag}/layers/contents`, upper directory `rwDir`,
work directory `workDir`, and the `MS_NODEV` flag. -/
theorem mount_image_dir_overlay_call (image : Image) (container_dir : ContainerDir) (st : Sys) :
    (ContainerExecuter.mount_image_dir image container_dir st).1 =
      [Op.mount (some "overlay") container_dir.root_dir (some "overlay") MS_NODEV
        (some ("lowerdir=" ++ renderPath (ContainerExecuter.get_image_base_path image ContainerExecuter.IMAGE_DATA_DIR ++ ["layers", "contents"]) ++ ",upperdir=" ++ renderPath container_dir.rw_dir ++ ",workdir=" ++ renderPath container_dir.work_dir))] := rfl

/-- C1 (counterexample): in a concrete launch the private remount of `/` is
not among the parent's operations at all — the first operation of the launch
is already the clone — while the child does perform the private remount after
the clone. -/
theorem launch_private_remount_not_in_parent :
    (Tagger.parent, Op.mount none [] none (MS_PRIVATE ||| MS_REC) none) ∉
      RunCommand.launchTrace sampleParams emptySys 42 (ChildOutcome.exited 0) ∧
    (Tagger.child, Op.mount none [] none (MS_PRIVATE ||| MS_REC) none) ∈
      RunCommand.launchTrace sampleParams emptySys 42 (ChildOutcome.exited 0) ∧
    (RunCommand.launchTrace sampleParams emptySys 42 (ChildOutcome.exited 0)).head? =
      some (Tagger.parent, Op.clone RunCommand.cloneFlags) := by
  refine ⟨by decide, by decide, rfl⟩

/-- C1 (amended): for every launch, the very first operation is the parent's
clone, and the private recursive remount of `/` is performed by the child,
right after setting the hostname and before any other mount operation. -/
theorem launch_private_remount_in_child_after_clone (init_params : ContainerInitParams)
    (st : Sys) (pid : Nat) (o : ChildOutcome) :
    ∃ rest, RunCommand.launchTrace init_params st pid o =
      (Tagger.parent, Op.clone RunCommand.cloneFlags) ::
      (Tagger.child, Op.sethostname init_params.container_id) ::
      (Tagger.child, Op.mount none [] none (MS_PRIVATE ||| MS_REC) none) :: rest :=
  ⟨_, rfl⟩

/-- C4 (counterexample): for a child that exits normally with code 1, the
number the launcher prints is the raw wait status 256, not the exit status 1
the spec's contract asks for. -/
theorem reported_status_is_not_exit_status :
    RunCommand.reportedStatus (ChildOutcome.exited 1) = 256 ∧
    specReport (ChildOutcome.exited 1) = 1 ∧
    RunCommand.reportedStatus (ChildOutcome.exited 1) ≠ specReport (ChildOutcome.exited 1) := by
  refine ⟨rfl, rfl, by decide⟩

/-- C4 (amended): the launcher clones, waits on the child's pid before
returning (the `waitpid` and the report are the last operations of the
launch), and reports the raw `os.waitpid` status, from which the exit status
(below 256) and the terminating signal (below 128) are recoverable by the
POSIX decodings. -/
theorem launch_blocks_and_reports_raw_wait_status (init_params : ContainerInitParams)
    (st : Sys) (pid : Nat) (o : ChildOutcome) :
    (∃ mid, RunCommand.launchTrace init_params st pid o =
      (Tagger.parent, Op.clone RunCommand.cloneFlags) :: mid ++
      [(Tagger.parent, Op.waitpid pid 0),
       (Tagger.parent, Op.printStatus pid (RunCommand.reportedStatus o))]) ∧
    (∀ c, o = ChildOutcome.exited c → c < 256 →
      wexitstatus (RunCommand.reportedStatus o) = c ∧
      wtermsig (RunCommand.reportedStatus o) = 0) ∧
    (∀ s, o = ChildOutcome.signaled s → s < 128 →
      wtermsig (RunCommand.reportedStatus o) = s) := by
  refine ⟨⟨_, rfl⟩, ?_, ?_⟩
  · rintro c rfl hc
    constructor
    · show (c % 256) * 256 / 256 % 256 = c
      omega
    · show (c % 256) * 256 % 128 = 0
      omega
  · rintro s rfl hs
    show s % 128 % 128 = s
    omega

/-- C4 (witness for the amended theorem at exit code 1). -/
theorem launch_blocks_and_reports_raw_wait_status_witness :
    wexitstatus (RunCommand.reportedStatus (ChildOutcome.exited 1)) = 1 ∧
    wtermsig (RunCommand.reportedStatus (ChildOutcome.exited 1)) = 0 :=
  (launch_blocks_and_reports_raw_wait_status sampleParams emptySys 42
    (ChildOutcome.exited 1)).2.1 1 rfl (by decide)

/-- C2 (counterexample): when `{imagePath}/layers/contents` is missing the
Overlay Mount Builder fails with the generic `OSError` of the mount syscall —
the very same error value an unrelated mount failure (missing mount point)
produces — and the spec's own taxonomy classes that as MountError, not as the
ImageNotFoundError the claim requires. -/
theorem missing_image_error_indistinguishable :
    existsPath dirsNoImageSys sampleLower = false ∧
    (ContainerExecuter.mount_image_dir sampleImage sampleContainerDir dirsNoImageSys).2 =
      Except.error (SysErr.osError 2) ∧
    (ContainerExecuter.mount_image_dir sampleImage sampleContainerDir imageNoTargetSys).2 =
      Except.error (SysErr.osError 2) ∧
    classifyErr (SysErr.osError 2) = SpecErrorKind.mountError ∧
    SpecErrorKind.mountError ≠ SpecErrorKind.imageNotFoundError := by
  refine ⟨by decide, rfl, rfl, rfl, by decide⟩

/-- C2 (amended): whenever the derived `layers/contents` directory does not
exist, the builder still attempts the overlay mount and the launch fails with
the generic `OSError` (ENOENT) of the mount syscall; no dedicated
image-not-found error kind exists in the code. -/
theorem mount_image_dir_missing_lower_oserror (image : Image)
    (container_dir : ContainerDir) (st : Sys)
    (h : existsPath st (ContainerExecuter.get_image_base_path image ContainerExecuter.IMAGE_DATA_DIR ++ ["layers", "contents"]) = false) :
    (ContainerExecuter.mount_image_dir image container_dir st).2 =
      Except.error (SysErr.osError 2) ∧
    (ContainerExecuter.mount_image_dir image container_dir st).1 =
      [Op.mount (some "overlay") container_dir.root_dir (some "overlay") MS_NODEV
        (some ("lowerdir=" ++ renderPath (ContainerExecuter.get_image_base_path image ContainerExecuter.IMAGE_DATA_DIR ++ ["layers", "contents"]) ++ ",upperdir=" ++ renderPath container_dir.rw_dir ++ ",workdir=" ++ renderPath container_dir.work_dir))] := by
  constructor
  · unfold ContainerExecuter.mount_image_dir linuxMount
    simp [h]
  · rfl

/-- C2 (witness for the amended theorem, on a state with container
directories but no image). -/
theorem mount_image_dir_missing_lower_oserror_witness :
    (ContainerExecuter.mount_image_dir sampleImage sampleContainerDir dirsNoImageSys).2 =
      Except.error (SysErr.osError 2) :=
  (mount_image_dir_missing_lower_oserror sampleImage sampleContainerDir dirsNoImageSys
    (by decide)).1

/-- C10: when the merged image content already provides an entry named
`old_root`, the unguarded `os.makedirs` of the Root Switcher raises
`FileExistsError` and the whole launch fails before any `pivot_root` is
attempted. -/
theorem old_root_in_image_aborts_launch_before_pivot :
    existsPath imageWithOldRootSys (sampleLower ++ ["old_root"]) = true ∧
    (ContainerExecuter.execute sampleParams imageWithOldRootSys).2 =
      Except.error (SysErr.fileExists ["var", "opt", "app", "container", "c1", "rootfs", "old_root"]) ∧
    (ContainerExecuter.execute sampleParams imageWithOldRootSys).1.any isPivotOp = false := by
  refine ⟨by decide, rfl, by decide⟩

/-- The Container Directory Manager always succeeds and returns the three
deterministic per-container paths, which exist afterwards. -/
lemma create_container_root_dir_total (container_id : String) (st : Sys) :
    ∃ t st', ContainerExecuter.create_container_root_dir container_id st =
        (t, Except.ok (st', ⟨ContainerExecuter.CONTAINER_DATA_DIR ++ [container_id] ++ ["rootfs"],
          ContainerExecuter.CONTAINER_DATA_DIR ++ [container_id] ++ ["cow_rw"],
          ContainerExecuter.CONTAINER_DATA_DIR ++ [container_id] ++ ["cow_workdir"]⟩)) ∧
      st'.root = st.root ∧
      existsPath st' (ContainerExecuter.CONTAINER_DATA_DIR ++ [container_id] ++ ["rootfs"]) = true ∧
      existsPath st' (ContainerExecuter.CONTAINER_DATA_DIR ++ [container_id] ++ ["cow_rw"]) = true ∧
      existsPath st' (ContainerExecuter.CONTAINER_DATA_DIR ++ [container_id] ++ ["cow_workdir"]) = true := by
  obtain ⟨t1, st1, e1, hr1, _, _, _, hx1, hm1⟩ :=
    makedirsIfAbsent_ok st (ContainerExecuter.CONTAINER_DATA_DIR ++ [container_id] ++ ["rootfs"]) (by simp)
  obtain ⟨t2, st2, e2, hr2, _, _, _, hx2, hm2⟩ :=
    makedirsIfAbsent_ok st1 (ContainerExecuter.CONTAINER_DATA_DIR ++ [container_id] ++ ["cow_rw"]) (by simp)
  obtain ⟨t3, st3, e3, hr3, _, _, _, hx3, hm3⟩ :=
    makedirsIfAbsent_ok st2 (ContainerExecuter.CONTAINER_DATA_DIR ++ [container_id] ++ ["cow_workdir"]) (by simp)
  refine ⟨t1 ++ (t2 ++ (t3 ++ [])), st3, ?_, ?_, ?_, ?_, ?_⟩
  · unfold ContainerExecuter.create_container_root_dir ContainerExecuter.get_container_data_base_path
    dsimp only []
    rw [e1, bindM_ok]
    rw [e2, bindM_ok]
    rw [e3, bindM_ok]
    simp only [okM]
  · rw [hr3, hr2, hr1]
  · show existsG st3 (st3.root ++ _) = true
    rw [hr3, hr2]
    exact hm3 _ (hm2 _ hx1)
  · show existsG st3 (st3.root ++ _) = true
    rw [hr3]
    exact hm3 _ hx2
  · exact hx3

/-- C8: the Container Directory Manager is idempotent — whenever a first call
for a `containerId` succeeds, it returned the deterministic paths
`container/{containerId}/{rootfs,cow_rw,cow_workdir}`, and a second call on
the resulting state raises no error, performs no directory creation, changes
nothing, and returns the identical `ContainerDir` value. -/
theorem create_container_root_dir_idempotent (container_id : String) (st st1 : Sys)
    (t1 : List Op) (d1 : ContainerDir)
    (h : ContainerExecuter.create_container_root_dir container_id st = (t1, Except.ok (st1, d1))) :
    d1 = ⟨ContainerExecuter.CONTAINER_DATA_DIR ++ [container_id] ++ ["rootfs"],
          ContainerExecuter.CONTAINER_DATA_DIR ++ [container_id] ++ ["cow_rw"],
          ContainerExecuter.CONTAINER_DATA_DIR ++ [container_id] ++ ["cow_workdir"]⟩ ∧
    ContainerExecuter.create_container_root_dir container_id st1 = ([], Except.ok (st1, d1)) := by
  obtain ⟨t, st', e, hr, hx1, hx2, hx3⟩ := create_container_root_dir_total container_id st
  rw [h] at e
  have ht : t1 = t := congrArg Prod.fst e
  have he2 := congrArg Prod.snd e
  simp only [Except.ok.injEq, Prod.mk.injEq] at he2
  obtain ⟨hst, hd⟩ := he2
  subst hst
  subst hd
  refine ⟨rfl, ?_⟩
  unfold ContainerExecuter.create_container_root_dir ContainerExecuter.get_container_data_base_path
  dsimp only []
  rw [show makedirsIfAbsent st1 (ContainerExecuter.CONTAINER_DATA_DIR ++ [container_id] ++ ["rootfs"]) = ([], Except.ok (st1, ())) from by unfold makedirsIfAbsent; rw [hx1]; simp [okM]]
  rw [bindM_ok]
  rw [show makedirsIfAbsent st1 (ContainerExecuter.CONTAINER_DATA_DIR ++ [container_id] ++ ["cow_rw"]) = ([], Except.ok (st1, ())) from by unfold makedirsIfAbsent; rw [hx2]; simp [okM]]
  rw [bindM_ok]
  rw [show makedirsIfAbsent st1 (ContainerExecuter.CONTAINER_DATA_DIR ++ [container_id] ++ ["cow_workdir"]) = ([], Except.ok (st1, ())) from by unfold makedirsIfAbsent; rw [hx3]; simp [okM]]
  rw [bindM_ok]
  simp only [okM]
  rfl

/-- C8 (witness): concrete first and second call for `containerId` `c1` from
an empty filesystem. -/
theorem create_container_root_dir_idempotent_witness :
    (⟨["var", "opt", "app", "container", "c1", "rootfs"],
      ["var", "opt", "app", "container", "c1", "cow_rw"],
      ["var", "opt", "app", "container", "c1", "cow_workdir"]⟩ : ContainerDir) =
      ⟨ContainerExecuter.CONTAINER_DATA_DIR ++ ["c1"] ++ ["rootfs"],
       ContainerExecuter.CONTAINER_DATA_DIR ++ ["c1"] ++ ["cow_rw"],
       ContainerExecuter.CONTAINER_DATA_DIR ++ ["c1"] ++ ["cow_workdir"]⟩ ∧
    ContainerExecuter.create_container_root_dir "c1"
      ⟨[(["var", "opt", "app", "container", "c1", "cow_workdir"], Entry.dir),
        (["var", "opt", "app", "container", "c1", "cow_rw"], Entry.dir),
        (["var"], Entry.dir), (["var", "opt"], Entry.dir),
        (["var", "opt", "app"], Entry.dir),
        (["var", "opt", "app", "container"], Entry.dir),
        (["var", "opt", "app", "container", "c1"], Entry.dir),
        (["var", "opt", "app", "container", "c1", "rootfs"], Entry.dir)],
        "host", [], [], none⟩ =
      ([], Except.ok (⟨[(["var", "opt", "app", "container", "c1", "cow_workdir"], Entry.dir),
        (["var", "opt", "app", "container", "c1", "cow_rw"], Entry.dir),
        (["var"], Entry.dir), (["var", "opt"], Entry.dir),
        (["var", "opt", "app"], Entry.dir),
        (["var", "opt", "app", "container"], Entry.dir),
        (["var", "opt", "app", "container", "c1"], Entry.dir),
        (["var", "opt", "app", "container", "c1", "rootfs"], Entry.dir)],
        "host", [], [], none⟩,
        ⟨["var", "opt", "app", "container", "c1", "rootfs"],
         ["var", "opt", "app", "container", "c1", "cow_rw"],
         ["var", "opt", "app", "container", "c1", "cow_workdir"]⟩)) :=
  create_container_root_dir_idempotent "c1" emptySys _ _ _ rfl

/-- C7: on an overlay-mounted `rootDir` whose tree does not yet contain
`old_root`, the Root Switcher creates `rootDir/old_root`, pivots so that
`rootDir` becomes the process root and the old root hangs at `/old_root`,
changes the working directory to the new `/`, detach-unmounts `/old_root` and
removes it — afterwards the working directory is the root and the root
listing no longer contains `old_root`. -/
theorem change_root_dir_pivots_and_cleans (container_root_dir : FPath) (st : Sys)
    (hne : container_root_dir ≠ [])
    (h1 : existsPath st (container_root_dir ++ ["old_root"]) = false)
    (h2 : st.entries.any (fun e => strictUnder (st.root ++ container_root_dir ++ ["old_root"]) e.1) = false) :
    ∃ st', ContainerExecuter.change_root_dir container_root_dir st =
      ([Op.makedirs (container_root_dir ++ ["old_root"]),
        Op.pivot_root container_root_dir (container_root_dir ++ ["old_root"]),
        Op.chdir [], Op.umount2 ["old_root"] MNT_DETACH, Op.rmdir ["old_root"]],
       Except.ok (st', ())) ∧
      st'.root = st.root ++ container_root_dir ∧
      st'.cwd = st'.root ∧
      existsPath st' ["old_root"] = false := by
  have hassoc : st.root ++ (container_root_dir ++ ["old_root"]) =
      st.root ++ container_root_dir ++ ["old_root"] := (List.append_assoc _ _ _).symm
  have hRne : st.root ++ container_root_dir ≠ [] := by
    intro hc
    rw [List.append_eq_nil] at hc
    exact hne hc.2
  have hmemR : (st.root ++ container_root_dir) ∈
      ancestorPaths (st.root ++ (container_root_dir ++ ["old_root"])) := by
    rw [hassoc, ancestorPaths_append_single]
    exact List.mem_append_left _ (mem_anc_self _ hRne)
  have hmemO : (st.root ++ container_root_dir ++ ["old_root"]) ∈
      ancestorPaths (st.root ++ (container_root_dir ++ ["old_root"])) := by
    rw [hassoc, ancestorPaths_append_single]
    exact List.mem_append_right _ (by simp)
  unfold ContainerExecuter.change_root_dir
  dsimp only []
  rw [osMakedirs_ok st _ h1, bindM_ok]
  set A := ((ancestorPaths (st.root ++ (container_root_dir ++ ["old_root"]))).filter (fun q => ! existsG st q)).map (fun q => (q, Entry.dir)) with hA
  have hexR : existsPath { st with entries := A ++ st.entries } container_root_dir = true := by
    show hasPath (A ++ st.entries) (st.root ++ container_root_dir) = true
    rw [hA]
    exact hasPath_created st (container_root_dir ++ ["old_root"]) _ hmemR
  have hexO : existsPath { st with entries := A ++ st.entries } (container_root_dir ++ ["old_root"]) = true := by
    show hasPath (A ++ st.entries) (st.root ++ (container_root_dir ++ ["old_root"])) = true
    rw [hA, hassoc]
    have base := hasPath_created st (container_root_dir ++ ["old_root"]) _ hmemO
    rw [hassoc] at base
    exact base
  rw [show linuxPivotRoot { st with entries := A ++ st.entries } container_root_dir (container_root_dir ++ ["old_root"]) = ([Op.pivot_root container_root_dir (container_root_dir ++ ["old_root"])], Except.ok ({ st with entries := A ++ st.entries, root := st.root ++ container_root_dir, oldRootMount := some (st.root ++ (container_root_dir ++ ["old_root"])) }, ())) from by unfold linuxPivotRoot; rw [hexR, hexO]; rfl]
  rw [bindM_ok]
  simp only [osChdir, bindM_ok]
  have hOM : (({ st with entries := A ++ st.entries, root := st.root ++ container_root_dir, cwd := st.root ++ container_root_dir ++ [], oldRootMount := some (st.root ++ (container_root_dir ++ ["old_root"])) } : Sys).oldRootMount) = some (({ st with entries := A ++ st.entries, root := st.root ++ container_root_dir, cwd := st.root ++ container_root_dir ++ [], oldRootMount := some (st.root ++ (container_root_dir ++ ["old_root"])) } : Sys).root ++ ["old_root"]) := by
    show some (st.root ++ (container_root_dir ++ ["old_root"])) = some (st.root ++ container_root_dir ++ ["old_root"])
    rw [hassoc]
  rw [show linuxUmount2 { st with entries := A ++ st.entries, root := st.root ++ container_root_dir, cwd := st.root ++ container_root_dir ++ [], oldRootMount := some (st.root ++ (container_root_dir ++ ["old_root"])) } ["old_root"] MNT_DETACH = ([Op.umount2 ["old_root"] MNT_DETACH], Except.ok ({ st with entries := A ++ st.entries, root := st.root ++ container_root_dir, cwd := st.root ++ container_root_dir ++ [], oldRootMount := none }, ())) from by unfold linuxUmount2; rw [if_pos hOM]]
  rw [bindM_ok]
  have hexO2 : existsG { st with entries := A ++ st.entries, root := st.root ++ container_root_dir, cwd := st.root ++ container_root_dir ++ [], oldRootMount := none } (st.root ++ container_root_dir ++ ["old_root"]) = true := by
    show hasPath (A ++ st.entries) (st.root ++ container_root_dir ++ ["old_root"]) = true
    rw [hA]
    exact hasPath_created st (container_root_dir ++ ["old_root"]) _ hmemO
  have hnonempty : ((A ++ st.entries).any (fun e => strictUnder (st.root ++ container_root_dir ++ ["old_root"]) e.1)) = false := by
    rw [List.any_append]
    rw [hA]
    rw [created_none_strictUnder st (container_root_dir ++ ["old_root"]) _ (fun q hq => anc_not_strictUnder _ q (by rw [← hassoc]; exact hq))]
    rw [h2]
    rfl
  rw [show osRmdir { st with entries := A ++ st.entries, root := st.root ++ container_root_dir, cwd := st.root ++ container_root_dir ++ [], oldRootMount := none } ["old_root"] = ([Op.rmdir ["old_root"]], Except.ok ({ st with entries := (A ++ st.entries).filter (fun e => ! decide (e.1 = st.root ++ container_root_dir ++ ["old_root"])), root := st.root ++ container_root_dir, cwd := st.root ++ container_root_dir ++ [], oldRootMount := none }, ())) from by unfold osRmdir; rw [if_neg (by simp), if_neg (by rw [show existsG _ _ = true from hexO2]; simp), if_neg (by rw [show ((_ : List (FPath × Entry)).any _) = false from hnonempty]; simp)]]
  refine ⟨_, rfl, rfl, ?_, ?_⟩
  · show st.root ++ container_root_dir ++ [] = st.root ++ container_root_dir
    simp
  · show hasPath ((A ++ st.entries).filter (fun e => ! decide (e.1 = st.root ++ container_root_dir ++ ["old_root"]))) (st.root ++ container_root_dir ++ ["old_root"]) = false
    exact hasPath_filter_not_self _ _

/-- C7 (witness): the Root Switcher run concretely from an empty filesystem
with root directory `/r`. -/
theorem change_root_dir_pivots_and_cleans_witness :
    ∃ st', ContainerExecuter.change_root_dir ["r"] emptySys =
      ([Op.makedirs ["r", "old_root"], Op.pivot_root ["r"] ["r", "old_root"],
        Op.chdir [], Op.umount2 ["old_root"] MNT_DETACH, Op.rmdir ["old_root"]],
       Except.ok (st', ())) ∧
      st'.root = ["r"] ∧ st'.cwd = st'.root ∧ existsPath st' ["old_root"] = false :=
  change_root_dir_pivots_and_cleans ["r"] emptySys (by decide) (by decide) (by decide)

/-- Sibling names give distinct resolved paths. -/
lemma append_single_ne (x y : FPath) (a b : String) (h : a ≠ b) :
    x ++ (y ++ [a]) ≠ x ++ (y ++ [b]) := by
  intro hc
  apply h
  have h1 := (List.append_right_inj x).mp hc
  have h2 := (List.append_right_inj y).mp h1
  simpa using h2

/-- Existential packaging of a successful `os.symlink`. -/
lemma osSymlink_step (st : Sys) (target : String) (link : FPath)
    (h : existsPath st link = false) :
    ∃ st', osSymlink st target link = ([Op.symlink target link], Except.ok (st', ())) ∧
      st'.root = st.root ∧
      st'.entries = (st.root ++ link, Entry.symlink target) :: st.entries :=
  ⟨_, osSymlink_ok st target link h, rfl, rfl⟩

/-- Existential packaging of a successful `os.mknod`. -/
lemma osMknod_step (st : Sys) (p : FPath) (mode : Nat) (dev : Nat)
    (h : existsPath st p = false) :
    ∃ st', osMknod st p mode dev = ([Op.mknod p mode dev], Except.ok (st', ())) ∧
      st'.root = st.root ∧
      st'.entries = (st.root ++ p, Entry.node mode dev) :: st.entries :=
  ⟨_, osMknod_ok st p mode dev h, rfl, rfl⟩

/-- Existential packaging of a successful `os.makedirs`. -/
lemma osMakedirs_step (st : Sys) (p : FPath) (h : existsPath st p = false) :
    ∃ st', osMakedirs st p = ([Op.makedirs p], Except.ok (st', ())) ∧
      st'.root = st.root ∧
      st'.entries = ((ancestorPaths (st.root ++ p)).filter (fun q => ! existsG st q)).map (fun q => (q, Entry.dir)) ++ st.entries :=
  ⟨_, osMakedirs_ok st p h, rfl, rfl⟩

/-- Existential packaging of a successful virtual-filesystem mount. -/
lemma linuxMount_freshEmpty_step (st : Sys) (source : Option String) (target : FPath)
    (fstype : Option String) (flags : Nat) (data : Option String)
    (h : existsPath st target = true) :
    ∃ st', linuxMount st source target fstype flags data MountSem.freshEmpty =
        ([Op.mount source target fstype flags data], Except.ok (st', ())) ∧
      st'.root = st.root ∧
      st'.entries = st.entries.filter (fun e => ! strictUnder (st.root ++ target) e.1) :=
  ⟨_, linuxMount_freshEmpty_ok st source target fstype flags data h, rfl, rfl⟩

/-- The device-node loop of `_init_devices` on a table of pairwise-distinct,
not-yet-present device names: it creates exactly one character-device node
per table row, in table order. -/
lemma mknodLoop_total (dev_path : FPath) (table : List (String × Nat × Nat × Nat)) :
    ∀ st : Sys,
    (∀ x ∈ table, existsPath st (dev_path ++ [x.1]) = false) →
    List.Pairwise (fun a b => a.1 ≠ b.1) table →
    ∃ st', ContainerExecuter.mknodLoop dev_path st table =
        (table.map (fun x => Op.mknod (dev_path ++ [x.1]) (0o666 ||| x.2.1) (makedev x.2.2.1 x.2.2.2)),
         Except.ok (st', ())) ∧
      st'.root = st.root ∧
      st'.entries = (table.map (fun x => (st.root ++ (dev_path ++ [x.1]), Entry.node (0o666 ||| x.2.1) (makedev x.2.2.1 x.2.2.2)))).reverse ++ st.entries := by
  induction table with
  | nil =>
    intro st _ _
    exact ⟨st, by simp [ContainerExecuter.mknodLoop, okM], rfl, by simp⟩
  | cons a rest ih =>
    intro st h hpw
    obtain ⟨device, dev_type, ma, mi⟩ := a
    obtain ⟨s1, e1, hr1, hent1⟩ :=
      osMknod_step st (dev_path ++ [device]) (0o666 ||| dev_type) (makedev ma mi)
        (h (device, dev_type, ma, mi) (by simp))
    rw [List.pairwise_cons] at hpw
    have hfresh1 : ∀ x ∈ rest, existsPath s1 (dev_path ++ [x.1]) = false := by
      intro x hx
      show hasPath s1.entries (s1.root ++ (dev_path ++ [x.1])) = false
      rw [hent1, hr1, hasPath_cons]
      rw [show hasPath st.entries (st.root ++ (dev_path ++ [x.1])) = false from h x (by simp [hx])]
      have hne : st.root ++ (dev_path ++ [device]) ≠ st.root ++ (dev_path ++ [x.1]) :=
        append_single_ne st.root dev_path device x.1 (hpw.1 x hx)
      simp [hne]
    obtain ⟨s2, e2, hr2, hent2⟩ := ih s1 hfresh1 hpw.2
    refine ⟨s2, ?_, ?_, ?_⟩
    · unfold ContainerExecuter.mknodLoop
      rw [e1, bindM_ok, e2]
      simp
    · rw [hr2, hr1]
    · rw [hent2, hent1, hr1]
      simp [List.append_assoc]

/-- Filtering survives a directory filter when lengths rule shadowing out. -/
lemma hasPath_filter_sibling (l : List (FPath × Entry)) (T q : FPath)
    (hlen : q.length ≤ T.length) :
    hasPath (l.filter (fun e => ! strictUnder T e.1)) q = hasPath l q := by
  apply hasPath_filter_keep
  intro e he
  show (! strictUnder T e.1) = true
  rw [he, strictUnder_of_length_le T q hlen]
  rfl

/-- Subtree extraction through the entry-pairing map. -/
lemma subtreeOf_map_pair (l : List FPath) (d : FPath) :
    subtreeOf (l.map (fun q => (q, Entry.dir))) d =
      (l.filter (fun q => strictUnder d q)).map (fun q => (q, Entry.dir)) := by
  induction l with
  | nil => rfl
  | cons a t ih =>
    rw [List.map_cons, List.filter_cons]
    by_cases h : strictUnder d a = true
    · rw [subtreeOf_cons_of _ _ _ _ h, ih, h]
      simp
    · simp only [Bool.not_eq_true] at h
      rw [subtreeOf_cons_off _ _ _ _ h, ih, h]
      simp


/-- A directory is never strictly under itself. -/
lemma strictUnder_self (p : FPath) : strictUnder p p = false :=
  strictUnder_of_length_le p p (le_refl _)

/-- The System Device Initializer always succeeds: after the tmpfs mount
wipes whatever was under `dev`, it unconditionally creates and mounts
`dev/pts` (the directory first, then the mount), and populates `dev` with
exactly the four stdio symlinks and the seven character devices of the
device table. -/
lemma init_system_dir_total (R : FPath) (st : Sys) :
    ∃ t0 st', ContainerExecuter.init_system_dir R st =
      (t0 ++ [Op.makedirs (R ++ ["dev", "pts"]),
              Op.mount (some "devpts") (R ++ ["dev", "pts"]) (some "devpts") 0 (some ""),
              Op.symlink "/proc/self/fd/0" (R ++ ["dev"] ++ ["stdin"]),
              Op.symlink "/proc/self/fd/1" (R ++ ["dev"] ++ ["stdout"]),
              Op.symlink "/proc/self/fd/2" (R ++ ["dev"] ++ ["stderr"]),
              Op.symlink "/proc/self/fd" (R ++ ["dev"] ++ ["fd"]),
              Op.mknod (R ++ ["dev"] ++ ["null"]) (0o666 ||| S_IFCHR) (makedev 1 3),
              Op.mknod (R ++ ["dev"] ++ ["zero"]) (0o666 ||| S_IFCHR) (makedev 1 5),
              Op.mknod (R ++ ["dev"] ++ ["random"]) (0o666 ||| S_IFCHR) (makedev 1 8),
              Op.mknod (R ++ ["dev"] ++ ["urandom"]) (0o666 ||| S_IFCHR) (makedev 1 9),
              Op.mknod (R ++ ["dev"] ++ ["console"]) (0o666 ||| S_IFCHR) (makedev 136 1),
              Op.mknod (R ++ ["dev"] ++ ["tty"]) (0o666 ||| S_IFCHR) (makedev 5 0),
              Op.mknod (R ++ ["dev"] ++ ["full"]) (0o666 ||| S_IFCHR) (makedev 1 7)],
       Except.ok (st', ())) ∧
    st'.root = st.root ∧
    subtreeOf st'.entries (st.root ++ (R ++ ["dev"])) =
      [(st.root ++ (R ++ ["dev"]) ++ ["full"], Entry.node (0o666 ||| S_IFCHR) (makedev 1 7)),
       (st.root ++ (R ++ ["dev"]) ++ ["tty"], Entry.node (0o666 ||| S_IFCHR) (makedev 5 0)),
       (st.root ++ (R ++ ["dev"]) ++ ["console"], Entry.node (0o666 ||| S_IFCHR) (makedev 136 1)),
       (st.root ++ (R ++ ["dev"]) ++ ["urandom"], Entry.node (0o666 ||| S_IFCHR) (makedev 1 9)),
       (st.root ++ (R ++ ["dev"]) ++ ["random"], Entry.node (0o666 ||| S_IFCHR) (makedev 1 8)),
       (st.root ++ (R ++ ["dev"]) ++ ["zero"], Entry.node (0o666 ||| S_IFCHR) (makedev 1 5)),
       (st.root ++ (R ++ ["dev"]) ++ ["null"], Entry.node (0o666 ||| S_IFCHR) (makedev 1 3)),
       (st.root ++ (R ++ ["dev"]) ++ ["fd"], Entry.symlink "/proc/self/fd"),
       (st.root ++ (R ++ ["dev"]) ++ ["stderr"], Entry.symlink "/proc/self/fd/2"),
       (st.root ++ (R ++ ["dev"]) ++ ["stdout"], Entry.symlink "/proc/self/fd/1"),
       (st.root ++ (R ++ ["dev"]) ++ ["stdin"], Entry.symlink "/proc/self/fd/0"),
       (st.root ++ (R ++ ["dev"]) ++ ["pts"], Entry.dir)] := by
  obtain ⟨ta1, s1, e1, hr1, _, _, _, hx1, hm1⟩ := makedirsIfAbsent_ok st (R ++ ["proc"]) (by simp)
  obtain ⟨ta2, s2, e2, hr2, _, _, _, hx2, hm2⟩ := makedirsIfAbsent_ok s1 (R ++ ["sys"]) (by simp)
  obtain ⟨ta3, s3, e3, hr3, _, _, _, hx3, hm3⟩ := makedirsIfAbsent_ok s2 (R ++ ["dev"]) (by simp)
  have hroot3 : s3.root = st.root := by rw [hr3, hr2, hr1]
  have hxp3 : existsPath s3 (R ++ ["proc"]) = true := by
    show existsG s3 (s3.root ++ (R ++ ["proc"])) = true
    rw [hr3, hr2]
    exact hm3 _ (hm2 _ hx1)
  have hxs3 : existsPath s3 (R ++ ["sys"]) = true := by
    show existsG s3 (s3.root ++ (R ++ ["sys"])) = true
    rw [hr3]
    exact hm3 _ hx2
  obtain ⟨s4, e4, hr4, hent4⟩ :=
    linuxMount_freshEmpty_step s3 (some "proc") (R ++ ["proc"]) (some "proc") 0 (some "") hxp3
  have hxs4 : existsPath s4 (R ++ ["sys"]) = true := by
    show hasPath s4.entries (s4.root ++ (R ++ ["sys"])) = true
    rw [hr4, hent4, hasPath_filter_sibling _ _ _ (by simp)]
    exact hxs3
  have hxd4 : existsPath s4 (R ++ ["dev"]) = true := by
    show hasPath s4.entries (s4.root ++ (R ++ ["dev"])) = true
    rw [hr4, hent4, hasPath_filter_sibling _ _ _ (by simp)]
    exact hx3
  obtain ⟨s5, e5, hr5, hent5⟩ :=
    linuxMount_freshEmpty_step s4 (some "sysfs") (R ++ ["sys"]) (some "sysfs") 0 (some "") hxs4
  have hxd5 : existsPath s5 (R ++ ["dev"]) = true := by
    show hasPath s5.entries (s5.root ++ (R ++ ["dev"])) = true
    rw [hr5, hent5, hasPath_filter_sibling _ _ _ (by simp)]
    exact hxd4
  obtain ⟨s6, e6, hr6, hent6⟩ :=
    linuxMount_freshEmpty_step s5 (some "tmpfs") (R ++ ["dev"]) (some "tmpfs")
      (MS_NOSUID ||| MS_STRICTATIME) (some "mode=755") hxd5
  have hroot5 : s5.root = st.root := by rw [hr5, hr4, hroot3]
  have hroot6 : s6.root = st.root := by rw [hr6, hroot5]
  have hsub6 : subtreeOf s6.entries (st.root ++ (R ++ ["dev"])) = [] := by
    rw [hent6, hroot5]
    exact subtreeOf_clear _ _
  have hpts_split : st.root ++ (R ++ ["dev", "pts"]) = st.root ++ (R ++ ["dev"]) ++ ["pts"] := by
    simp
  have hxpts6 : existsPath s6 (R ++ ["dev", "pts"]) = false := by
    show hasPath s6.entries (s6.root ++ (R ++ ["dev", "pts"])) = false
    rw [hroot6, hpts_split]
    rw [hasPath_eq_subtree s6.entries (st.root ++ (R ++ ["dev"])) _ (strictUnder_append_single _ _)]
    rw [hsub6]
    rfl
  obtain ⟨s7, e7, hr7, hent7⟩ := osMakedirs_step s6 (R ++ ["dev", "pts"]) hxpts6
  have hroot7 : s7.root = st.root := by rw [hr7, hroot6]
  have hxpts7 : existsPath s7 (R ++ ["dev", "pts"]) = true := by
    show hasPath s7.entries (s7.root ++ (R ++ ["dev", "pts"])) = true
    rw [hr7, hent7]
    exact hasPath_created s6 (R ++ ["dev", "pts"]) _ (mem_anc_self _ (by simp))
  obtain ⟨s8, e8, hr8, hent8⟩ :=
    linuxMount_freshEmpty_step s7 (some "devpts") (R ++ ["dev", "pts"]) (some "devpts") 0 (some "") hxpts7
  have hroot8 : s8.root = st.root := by rw [hr8, hroot7]
  have edev : ContainerExecuter.devptsBlock R s6 =
      ([Op.makedirs (R ++ ["dev", "pts"]),
        Op.mount (some "devpts") (R ++ ["dev", "pts"]) (some "devpts") 0 (some "")],
       Except.ok (s8, ())) := by
    unfold ContainerExecuter.devptsBlock
    dsimp only []
    rw [hxpts6]
    simp only [Bool.false_eq_true, if_false]
    rw [e7, bindM_ok, e8]
    rfl
  have hnopts6 : existsG s6 (st.root ++ (R ++ ["dev"]) ++ ["pts"]) = false := by
    show hasPath s6.entries (st.root ++ (R ++ ["dev"]) ++ ["pts"]) = false
    rw [hasPath_eq_subtree s6.entries (st.root ++ (R ++ ["dev"])) _ (strictUnder_append_single _ _)]
    rw [hsub6]
    rfl
  have hsub8 : subtreeOf s8.entries (st.root ++ (R ++ ["dev"])) =
      [(st.root ++ (R ++ ["dev"]) ++ ["pts"], Entry.dir)] := by
    rw [hent8, hroot7, subtreeOf_filter_comm, hent7, hroot6, subtreeOf_append, hsub6]
    rw [subtreeOf_map_pair]
    rw [hpts_split, anc_filter_strictUnder]
    rw [hnopts6]
    simp [strictUnder_self]
  have hfresh8 : ∀ name : String, name ≠ "pts" → existsPath s8 (R ++ ["dev"] ++ [name]) = false := by
    intro name hn
    show hasPath s8.entries (s8.root ++ (R ++ ["dev"] ++ [name])) = false
    rw [hroot8]
    rw [show st.root ++ (R ++ ["dev"] ++ [name]) = st.root ++ (R ++ ["dev"]) ++ [name] from by simp]
    rw [hasPath_eq_subtree s8.entries (st.root ++ (R ++ ["dev"])) _ (strictUnder_append_single _ _)]
    rw [hsub8, hasPath_cons]
    simp [hasPath, Ne.symm hn]
  obtain ⟨s9, e9, hr9, hent9⟩ :=
    osSymlink_step s8 "/proc/self/fd/0" (R ++ ["dev"] ++ ["stdin"]) (hfresh8 "stdin" (by decide))
  have hf9 : existsPath s9 (R ++ ["dev"] ++ ["stdout"]) = false := by
    show hasPath s9.entries (s9.root ++ (R ++ ["dev"] ++ ["stdout"])) = false
    rw [hent9, hr9, hasPath_cons]
    rw [show hasPath s8.entries (s8.root ++ (R ++ ["dev"] ++ ["stdout"])) = false from
      hfresh8 "stdout" (by decide)]
    simp [append_single_ne s8.root (R ++ ["dev"]) "stdin" "stdout" (by decide)]
  obtain ⟨s10, e10, hr10, hent10⟩ :=
    osSymlink_step s9 "/proc/self/fd/1" (R ++ ["dev"] ++ ["stdout"]) hf9
  have hf10 : existsPath s10 (R ++ ["dev"] ++ ["stderr"]) = false := by
    show hasPath s10.entries (s10.root ++ (R ++ ["dev"] ++ ["stderr"])) = false
    rw [hent10, hr10, hasPath_cons, hent9, hr9, hasPath_cons]
    rw [show hasPath s8.entries (s8.root ++ (R ++ ["dev"] ++ ["stderr"])) = false from
      hfresh8 "stderr" (by decide)]
    simp [append_single_ne s8.root (R ++ ["dev"]) "stdin" "stderr" (by decide),
          append_single_ne s8.root (R ++ ["dev"]) "stdout" "stderr" (by decide)]
  obtain ⟨s11, e11, hr11, hent11⟩ :=
    osSymlink_step s10 "/proc/self/fd/2" (R ++ ["dev"] ++ ["stderr"]) hf10
  have hf11 : existsPath s11 (R ++ ["dev"] ++ ["fd"]) = false := by
    show hasPath s11.entries (s11.root ++ (R ++ ["dev"] ++ ["fd"])) = false
    rw [hent11, hr11, hasPath_cons, hent10, hr10, hasPath_cons, hent9, hr9, hasPath_cons]
    rw [show hasPath s8.entries (s8.root ++ (R ++ ["dev"] ++ ["fd"])) = false from
      hfresh8 "fd" (by decide)]
    simp [append_single_ne s8.root (R ++ ["dev"]) "stdin" "fd" (by decide),
          append_single_ne s8.root (R ++ ["dev"]) "stdout" "fd" (by decide),
          append_single_ne s8.root (R ++ ["dev"]) "stderr" "fd" (by decide)]
  obtain ⟨s12, e12, hr12, hent12⟩ :=
    osSymlink_step s11 "/proc/self/fd" (R ++ ["dev"] ++ ["fd"]) hf11
  have hfreshN : ∀ name : String, name ≠ "pts" → name ≠ "stdin" → name ≠ "stdout" →
      name ≠ "stderr" → name ≠ "fd" → existsPath s12 (R ++ ["dev"] ++ [name]) = false := by
    intro name h0 h1 h2 h3 h4
    show hasPath s12.entries (s12.root ++ (R ++ ["dev"] ++ [name])) = false
    rw [hent12, hr12, hasPath_cons, hent11, hr11, hasPath_cons, hent10, hr10, hasPath_cons,
        hent9, hr9, hasPath_cons]
    rw [show hasPath s8.entries (s8.root ++ (R ++ ["dev"] ++ [name])) = false from hfresh8 name h0]
    simp [Ne.symm h1, Ne.symm h2, Ne.symm h3, Ne.symm h4]
  have hdevfresh : ∀ x ∈ ContainerExecuter.deviceTable,
      existsPath s12 ((R ++ ["dev"]) ++ [x.1]) = false := by
    intro x hx
    have h7 : x.1 = "null" ∨ x.1 = "zero" ∨ x.1 = "random" ∨ x.1 = "urandom" ∨
        x.1 = "console" ∨ x.1 = "tty" ∨ x.1 = "full" := by
      simp only [ContainerExecuter.deviceTable, List.mem_cons, List.not_mem_nil, or_false] at hx
      rcases hx with h|h|h|h|h|h|h <;> rw [h] <;> simp
    rcases h7 with h|h|h|h|h|h|h <;> rw [h] <;>
      exact hfreshN _ (by decide) (by decide) (by decide) (by decide) (by decide)
  obtain ⟨s13, e13, hr13, hent13⟩ :=
    mknodLoop_total (R ++ ["dev"]) ContainerExecuter.deviceTable s12 hdevfresh (by decide)
  have einit : ContainerExecuter.init_devices (R ++ ["dev"]) s8 =
      ([Op.symlink "/proc/self/fd/0" (R ++ ["dev"] ++ ["stdin"]),
        Op.symlink "/proc/self/fd/1" (R ++ ["dev"] ++ ["stdout"]),
        Op.symlink "/proc/self/fd/2" (R ++ ["dev"] ++ ["stderr"]),
        Op.symlink "/proc/self/fd" (R ++ ["dev"] ++ ["fd"]),
        Op.mknod (R ++ ["dev"] ++ ["null"]) (0o666 ||| S_IFCHR) (makedev 1 3),
        Op.mknod (R ++ ["dev"] ++ ["zero"]) (0o666 ||| S_IFCHR) (makedev 1 5),
        Op.mknod (R ++ ["dev"] ++ ["random"]) (0o666 ||| S_IFCHR) (makedev 1 8),
        Op.mknod (R ++ ["dev"] ++ ["urandom"]) (0o666 ||| S_IFCHR) (makedev 1 9),
        Op.mknod (R ++ ["dev"] ++ ["console"]) (0o666 ||| S_IFCHR) (makedev 136 1),
        Op.mknod (R ++ ["dev"] ++ ["tty"]) (0o666 ||| S_IFCHR) (makedev 5 0),
        Op.mknod (R ++ ["dev"] ++ ["full"]) (0o666 ||| S_IFCHR) (makedev 1 7)],
       Except.ok (s13, ())) := by
    unfold ContainerExecuter.init_devices
    rw [e9, bindM_ok, e10, bindM_ok, e11, bindM_ok, e12, bindM_ok, e13]
    simp [ContainerExecuter.deviceTable]
  have hroot9 : s9.root = st.root := by rw [hr9, hroot8]
  have hroot10 : s10.root = st.root := by rw [hr10, hroot9]
  have hroot11 : s11.root = st.root := by rw [hr11, hroot10]
  have hroot12 : s12.root = st.root := by rw [hr12, hroot11]
  have hstep : ∀ name : String, strictUnder (st.root ++ (R ++ ["dev"]))
      (st.root ++ ((R ++ ["dev"]) ++ [name])) = true := by
    intro name
    rw [show st.root ++ ((R ++ ["dev"]) ++ [name]) = st.root ++ (R ++ ["dev"]) ++ [name] from
      (List.append_assoc _ _ _).symm]
    exact strictUnder_append_single _ _
  have hsub13 : subtreeOf s13.entries (st.root ++ (R ++ ["dev"])) =
      [(st.root ++ (R ++ ["dev"]) ++ ["full"], Entry.node (0o666 ||| S_IFCHR) (makedev 1 7)),
       (st.root ++ (R ++ ["dev"]) ++ ["tty"], Entry.node (0o666 ||| S_IFCHR) (makedev 5 0)),
       (st.root ++ (R ++ ["dev"]) ++ ["console"], Entry.node (0o666 ||| S_IFCHR) (makedev 136 1)),
       (st.root ++ (R ++ ["dev"]) ++ ["urandom"], Entry.node (0o666 ||| S_IFCHR) (makedev 1 9)),
       (st.root ++ (R ++ ["dev"]) ++ ["random"], Entry.node (0o666 ||| S_IFCHR) (makedev 1 8)),
       (st.root ++ (R ++ ["dev"]) ++ ["zero"], Entry.node (0o666 ||| S_IFCHR) (makedev 1 5)),
       (st.root ++ (R ++ ["dev"]) ++ ["null"], Entry.node (0o666 ||| S_IFCHR) (makedev 1 3)),
       (st.root ++ (R ++ ["dev"]) ++ ["fd"], Entry.symlink "/proc/self/fd"),
       (st.root ++ (R ++ ["dev"]) ++ ["stderr"], Entry.symlink "/proc/self/fd/2"),
       (st.root ++ (R ++ ["dev"]) ++ ["stdout"], Entry.symlink "/proc/self/fd/1"),
       (st.root ++ (R ++ ["dev"]) ++ ["stdin"], Entry.symlink "/proc/self/fd/0"),
       (st.root ++ (R ++ ["dev"]) ++ ["pts"], Entry.dir)] := by
    rw [hent13]
    simp only [hroot12, ContainerExecuter.deviceTable, List.map_cons, List.map_nil,
      List.reverse_cons, List.reverse_nil, List.nil_append, List.cons_append,
      List.singleton_append]
    rw [subtreeOf_cons_of _ _ _ _ (hstep "full")]
    rw [subtreeOf_cons_of _ _ _ _ (hstep "tty")]
    rw [subtreeOf_cons_of _ _ _ _ (hstep "console")]
    rw [subtreeOf_cons_of _ _ _ _ (hstep "urandom")]
    rw [subtreeOf_cons_of _ _ _ _ (hstep "random")]
    rw [subtreeOf_cons_of _ _ _ _ (hstep "zero")]
    rw [subtreeOf_cons_of _ _ _ _ (hstep "null")]
    rw [hent12, hent11, hent10, hent9]
    simp only [hroot11, hroot10, hroot9, hroot8]
    rw [subtreeOf_cons_of _ _ _ _ (hstep "fd")]
    rw [subtreeOf_cons_of _ _ _ _ (hstep "stderr")]
    rw [subtreeOf_cons_of _ _ _ _ (hstep "stdout")]
    rw [subtreeOf_cons_of _ _ _ _ (hstep "stdin")]
    rw [hsub8]
    simp [List.append_assoc]
  refine ⟨ta1 ++ ta2 ++ ta3 ++
    [Op.mount (some "proc") (R ++ ["proc"]) (some "proc") 0 (some ""),
     Op.mount (some "sysfs") (R ++ ["sys"]) (some "sysfs") 0 (some ""),
     Op.mount (some "tmpfs") (R ++ ["dev"]) (some "tmpfs") (MS_NOSUID ||| MS_STRICTATIME) (some "mode=755")],
    s13, ?_, ?_, hsub13⟩
  · unfold ContainerExecuter.init_system_dir
    dsimp only []
    rw [e1, bindM_ok, e2, bindM_ok, e3, bindM_ok, e4, bindM_ok, e5, bindM_ok, e6, bindM_ok,
        edev, bindM_ok, einit]
    simp [List.append_assoc]
  · rw [hr13, hroot12]

/-- A character-device node with the mode the code passes is classified as a
character device. -/
lemma isChardevEntry_node (d : Nat) :
    isChardevEntry (Entry.node (0o666 ||| S_IFCHR) d) = true := rfl

/-- A symlink is not a character device. -/
lemma isChardevEntry_symlink (t : String) : isChardevEntry (Entry.symlink t) = false := rfl

/-- A directory is not a character device. -/
lemma isChardevEntry_dir : isChardevEntry Entry.dir = false := rfl

/-- A symlink entry is a symlink. -/
lemma isSymlinkEntry_symlink (t : String) : isSymlinkEntry (Entry.symlink t) = true := rfl

/-- A node entry is not a symlink. -/
lemma isSymlinkEntry_node (m d : Nat) : isSymlinkEntry (Entry.node m d) = false := rfl

/-- A directory entry is not a symlink. -/
lemma isSymlinkEntry_dir : isSymlinkEntry Entry.dir = false := rfl

/-- C3: on every run of `_init_system_dir`, whatever the starting state, the
`dev/pts` directory is created and a `devpts` filesystem is mounted at
`rootDir/dev/pts` immediately afterwards — the mount is never skipped,
because the tmpfs mount over `dev` has just hidden any pre-existing
`dev/pts`. -/
theorem init_system_dir_devpts_mount (container_root_dir : FPath) (st : Sys) :
    ∃ t1 t2, (ContainerExecuter.init_system_dir container_root_dir st).1 =
      t1 ++ Op.makedirs (container_root_dir ++ ["dev", "pts"]) ::
        Op.mount (some "devpts") (container_root_dir ++ ["dev", "pts"]) (some "devpts") 0 (some "") :: t2 := by
  obtain ⟨t0, st', heq, _, _⟩ := init_system_dir_total container_root_dir st
  refine ⟨t0,
    [Op.symlink "/proc/self/fd/0" (container_root_dir ++ ["dev"] ++ ["stdin"]),
     Op.symlink "/proc/self/fd/1" (container_root_dir ++ ["dev"] ++ ["stdout"]),
     Op.symlink "/proc/self/fd/2" (container_root_dir ++ ["dev"] ++ ["stderr"]),
     Op.symlink "/proc/self/fd" (container_root_dir ++ ["dev"] ++ ["fd"]),
     Op.mknod (container_root_dir ++ ["dev"] ++ ["null"]) (0o666 ||| S_IFCHR) (makedev 1 3),
     Op.mknod (container_root_dir ++ ["dev"] ++ ["zero"]) (0o666 ||| S_IFCHR) (makedev 1 5),
     Op.mknod (container_root_dir ++ ["dev"] ++ ["random"]) (0o666 ||| S_IFCHR) (makedev 1 8),
     Op.mknod (container_root_dir ++ ["dev"] ++ ["urandom"]) (0o666 ||| S_IFCHR) (makedev 1 9),
     Op.mknod (container_root_dir ++ ["dev"] ++ ["console"]) (0o666 ||| S_IFCHR) (makedev 136 1),
     Op.mknod (container_root_dir ++ ["dev"] ++ ["tty"]) (0o666 ||| S_IFCHR) (makedev 5 0),
     Op.mknod (container_root_dir ++ ["dev"] ++ ["full"]) (0o666 ||| S_IFCHR) (makedev 1 7)], ?_⟩
  rw [heq]

/-- C6: after `_init_system_dir`, whatever the starting state, the `dev`
subtree of the container root holds exactly the symlinks `fd`, `stderr`,
`stdout`, `stdin` (targets `/proc/self/fd{,/2,/1,/0}`) and exactly the seven
character-device nodes `full`, `tty`, `console`, `urandom`, `random`, `zero`,
`null`, each with mode `0o666 | S_IFCHR` and its `makedev` major/minor
number. -/
theorem init_system_dir_device_entries (container_root_dir : FPath) (st : Sys) :
    ∃ st', (ContainerExecuter.init_system_dir container_root_dir st).2 = Except.ok (st', ()) ∧
    (subtreeOf st'.entries (st.root ++ (container_root_dir ++ ["dev"]))).filter
        (fun e => isSymlinkEntry e.2) =
      [(st.root ++ (container_root_dir ++ ["dev"]) ++ ["fd"], Entry.symlink "/proc/self/fd"),
       (st.root ++ (container_root_dir ++ ["dev"]) ++ ["stderr"], Entry.symlink "/proc/self/fd/2"),
       (st.root ++ (container_root_dir ++ ["dev"]) ++ ["stdout"], Entry.symlink "/proc/self/fd/1"),
       (st.root ++ (container_root_dir ++ ["dev"]) ++ ["stdin"], Entry.symlink "/proc/self/fd/0")] ∧
    (subtreeOf st'.entries (st.root ++ (container_root_dir ++ ["dev"]))).filter
        (fun e => isChardevEntry e.2) =
      [(st.root ++ (container_root_dir ++ ["dev"]) ++ ["full"], Entry.node (0o666 ||| S_IFCHR) (makedev 1 7)),
       (st.root ++ (container_root_dir ++ ["dev"]) ++ ["tty"], Entry.node (0o666 ||| S_IFCHR) (makedev 5 0)),
       (st.root ++ (container_root_dir ++ ["dev"]) ++ ["console"], Entry.node (0o666 ||| S_IFCHR) (makedev 136 1)),
       (st.root ++ (container_root_dir ++ ["dev"]) ++ ["urandom"], Entry.node (0o666 ||| S_IFCHR) (makedev 1 9)),
       (st.root ++ (container_root_dir ++ ["dev"]) ++ ["random"], Entry.node (0o666 ||| S_IFCHR) (makedev 1 8)),
       (st.root ++ (container_root_dir ++ ["dev"]) ++ ["zero"], Entry.node (0o666 ||| S_IFCHR) (makedev 1 5)),
       (st.root ++ (container_root_dir ++ ["dev"]) ++ ["null"], Entry.node (0o666 ||| S_IFCHR) (makedev 1 3))] := by
  obtain ⟨t0, st', heq, _, hsub⟩ := init_system_dir_total container_root_dir st
  refine ⟨st', by rw [heq], ?_, ?_⟩
  · rw [hsub]
    simp [List.filter_cons, isSymlinkEntry_symlink, isSymlinkEntry_node, isSymlinkEntry_dir]
  · rw [hsub]
    simp [List.filter_cons, isChardevEntry_symlink, isChardevEntry_node, isChardevEntry_dir]
